import Mathlib

/-!
Shallow embedding of the binaural-beats service in `src/main.py` (krishnashakula/BB).

Conventions of the embedding:
* Python floats are modelled by exact rationals `ℚ`; transcendental sample values
  (`np.sin`, `np.sign`) live in `ℝ`.
* Python `int(x)` (truncation toward zero) is `pyIntOfRat`.
* Python dicts keyed by strings are association lists with overwrite-on-insert
  (`dinsert`) and first-match lookup (`dlookup`), mirroring the unique-key
  behaviour of a dict.
* The FastAPI/transport layer is modelled by explicit request functions on a
  `SessionManagerState`, returning `Except HttpError` results, and by an event
  trace for the websocket endpoint.
* Wall-clock time (`time.time()`, `datetime.now()`) is passed in explicitly as a
  rational timestamp; the streaming loop is modelled with ideal pacing: the k-th
  loop iteration observes elapsed time `k * (BUFFER_SIZE / SAMPLE_RATE)` and the
  `asyncio.sleep` is recorded as an explicit `sleep` event in the trace.
* `hash(str(config))` (process-fixed but seed-dependent in CPython) is an
  arbitrary parameter `pyHash : String → ℤ` together with `strOfConfig`.
-/

/-- `SAMPLE_RATE = 44100` (main.py line 31). -/
def SAMPLE_RATE : ℕ := 44100

/-- `BUFFER_SIZE = 1024` (main.py line 32). -/
def BUFFER_SIZE : ℕ := 1024

/-- The per-buffer period `BUFFER_SIZE / SAMPLE_RATE` seconds. -/
def bufferPeriod : ℚ := (BUFFER_SIZE : ℚ) / (SAMPLE_RATE : ℚ)

/-- Python `int(x)`: truncation toward zero. -/
def pyIntOfRat (x : ℚ) : ℤ := if 0 ≤ x then ⌊x⌋ else ⌈x⌉

/-- The four waveform kinds admitted by the pydantic pattern
`^(sine|square|sawtooth|triangle)$` on `BinauralConfig.waveform`
(main.py line 41); any other string is rejected by validation before the
generator runs, so the field is modelled as this inductive. -/
inductive Waveform
  | sine
  | square
  | sawtooth
  | triangle
deriving DecidableEq

/-- `BinauralConfig` (main.py lines 38-43); numeric field bounds are recorded
separately in `validConfig`. -/
structure BinauralConfig where
  carrier_freq : ℚ
  beat_freq : ℚ
  waveform : Waveform
  duration : ℕ
  volume : ℚ
deriving DecidableEq

/-- The pydantic `Field` bounds of `BinauralConfig` (main.py lines 39-43). -/
def validConfig (c : BinauralConfig) : Prop :=
  40 ≤ c.carrier_freq ∧ c.carrier_freq ≤ 1000 ∧
  1/2 ≤ c.beat_freq ∧ c.beat_freq ≤ 40 ∧
  1 ≤ c.duration ∧ c.duration ≤ 3600 ∧
  0 ≤ c.volume ∧ c.volume ≤ 1

instance (c : BinauralConfig) : Decidable (validConfig c) := by
  unfold validConfig; infer_instance

/-- The rational core `t*f - floor(0.5 + t*f)` shared by the sawtooth and
triangle branches of `generate_waveform` (main.py lines 75, 77), scaled by 2. -/
def sawtoothSample (frequency t : ℚ) : ℚ :=
  2 * (t * frequency - ⌊1/2 + t * frequency⌋)

/-- The per-kind sample value of `generate_waveform` (main.py lines 70-77):
sine `sin(2π f t)`, square `sign(sin(2π f t))` (`np.sign`), sawtooth
`2*(t*f - floor(0.5 + t*f))`, triangle `2*|2*(t*f - floor(0.5 + t*f))| - 1`. -/
noncomputable def sampleAt : Waveform → ℚ → ℚ → ℝ
  | .sine, frequency, t => Real.sin (2 * Real.pi * (frequency : ℝ) * (t : ℝ))
  | .square, frequency, t => Real.sign (Real.sin (2 * Real.pi * (frequency : ℝ) * (t : ℝ)))
  | .sawtooth, frequency, t => ((sawtoothSample frequency t : ℚ) : ℝ)
  | .triangle, frequency, t => ((2 * |sawtoothSample frequency t| - 1 : ℚ) : ℝ)

/-- `np.linspace(0, duration, samples, False)` (main.py line 68): `samples`
evenly spaced points starting at 0 with step `duration / samples`, endpoint
excluded. -/
def linspace0 (duration : ℚ) (samples : ℕ) : List ℚ :=
  (List.range samples).map (fun (i : ℕ) => duration * (i : ℚ) / (samples : ℚ))

/-- `BinauralGenerator.generate_waveform` (main.py lines 65-79):
`samples = int(duration * sample_rate)`, `t = np.linspace(0, duration, samples,
False)`, then the per-kind formula applied pointwise to `t`. -/
noncomputable def generate_waveform (frequency duration : ℚ) (waveform : Waveform) : List ℝ :=
  let samples := (pyIntOfRat (duration * (SAMPLE_RATE : ℚ))).toNat
  let t := linspace0 duration samples
  t.map (sampleAt waveform frequency)

/-- `AudioBuffer` (main.py lines 51-55). -/
structure AudioBuffer where
  left_channel : List ℝ
  right_channel : List ℝ
  timestamp : ℚ

/-- `BinauralGenerator.generate_binaural_beats` (main.py lines 81-109): left
ear at `carrier_freq`, right ear at `carrier_freq + beat_freq`, both for the
fixed buffer duration `buffer_size / sample_rate`, each sample scaled by
`config.volume`; `now` is the `time.time()` timestamp. -/
noncomputable def generate_binaural_beats (config : BinauralConfig) (now : ℚ) : AudioBuffer :=
  let left_freq := config.carrier_freq
  let right_freq := config.carrier_freq + config.beat_freq
  let buffer_duration : ℚ := (BUFFER_SIZE : ℚ) / (SAMPLE_RATE : ℚ)
  { left_channel :=
      (generate_waveform left_freq buffer_duration config.waveform).map
        (fun x => x * (config.volume : ℝ))
    right_channel :=
      (generate_waveform right_freq buffer_duration config.waveform).map
        (fun x => x * (config.volume : ℝ))
    timestamp := now }

/-- `SessionData` (main.py lines 45-49); `start_time` is the `datetime.now()`
timestamp as a rational. -/
structure SessionData where
  session_id : String
  config : BinauralConfig
  start_time : ℚ
  is_active : Bool
deriving DecidableEq

/-- First-match lookup in an association list (Python `dict.get` /
`key in dict`; dict keys are unique, the list is searched front-first). -/
def dlookup {α : Type} : List (String × α) → String → Option α
  | [], _ => none
  | (k, v) :: rest, key => if k = key then some v else dlookup rest key

/-- Python `dict[key] = value`: overwrite the existing entry for the key if
present, else append a new entry. -/
def dinsert {α : Type} : List (String × α) → String → α → List (String × α)
  | [], key, value => [(key, value)]
  | (k, v) :: rest, key, value =>
      if k = key then (key, value) :: rest else (k, v) :: dinsert rest key value

/-- In-place mutation of the value stored under a key (Python
`dict[key].field = ...`): modify the first matching entry. -/
def dmodify {α : Type} : List (String × α) → String → (α → α) → List (String × α)
  | [], _, _ => []
  | (k, v) :: rest, key, f =>
      if k = key then (k, f v) :: rest else (k, v) :: dmodify rest key f

/-- `SessionManager` state (main.py lines 119-121): the session registry and
the keys of the `active_connections` dict (the websocket objects themselves
carry no state the claims need). -/
structure SessionManagerState where
  sessions : List (String × SessionData)
  active_connections : List String
deriving DecidableEq

/-- `active_connections[session_id] = websocket` on the key set: dict keys are
unique, so inserting a present key leaves the key set unchanged. -/
def connInsert (conns : List String) (session_id : String) : List String :=
  if session_id ∈ conns then conns else conns ++ [session_id]

/-- `SessionManager.create_session` (main.py lines 123-135):
`session_id = f"session_{int(time.time())}_{hash(str(config)) % 10000}"`, a new
active `SessionData`, stored in the registry. `pyHash` and `strOfConfig` model
the process-fixed `hash` and `str` functions; `now` is the wall clock. -/
def create_session (st : SessionManagerState) (pyHash : String → ℤ)
    (strOfConfig : BinauralConfig → String) (now : ℚ) (config : BinauralConfig) :
    String × SessionManagerState :=
  let session_id :=
    "session_" ++ toString (pyIntOfRat now) ++ "_" ++
      toString (pyHash (strOfConfig config) % 10000)
  let session : SessionData :=
    { session_id := session_id, config := config, start_time := now, is_active := true }
  (session_id, { st with sessions := dinsert st.sessions session_id session })

/-- `SessionManager.get_session` (main.py lines 137-139). -/
def get_session (st : SessionManagerState) (session_id : String) : Option SessionData :=
  dlookup st.sessions session_id

/-- `SessionManager.end_session` (main.py lines 141-147): if the session is
registered, mark it inactive and drop its entry from `active_connections`
(the registry entry itself is kept); otherwise do nothing. -/
def end_session (st : SessionManagerState) (session_id : String) : SessionManagerState :=
  if (dlookup st.sessions session_id).isSome then
    { sessions := dmodify st.sessions session_id (fun s => { s with is_active := false })
      active_connections :=
        if session_id ∈ st.active_connections then
          st.active_connections.erase session_id
        else st.active_connections }
  else st

/-- An HTTP error response (FastAPI `HTTPException`). -/
structure HttpError where
  status_code : ℕ
  detail : String
deriving DecidableEq

/-- starlette renders `str(HTTPException(code, detail))` as `"code: detail"`. -/
def strOfHttpError (e : HttpError) : String :=
  toString e.status_code ++ ": " ++ e.detail

/-- Body of the `POST /beats/generate` response (main.py lines 649-654). -/
structure GenerateResponse where
  session_id : String
  config : BinauralConfig
  status : String
  estimated_quality : String
deriving DecidableEq

/-- The `try` body of `generate_beats` (main.py lines 635-654): reject when
`carrier_freq + beat_freq > 1000` with `HTTPException(400, ...)`, otherwise
run a test generation, create the session and return the response. -/
noncomputable def generate_beats_body (st : SessionManagerState) (pyHash : String → ℤ)
    (strOfConfig : BinauralConfig → String) (now : ℚ) (config : BinauralConfig) :
    Except HttpError GenerateResponse × SessionManagerState :=
  if config.carrier_freq + config.beat_freq > 1000 then
    (.error { status_code := 400, detail := "Combined frequency exceeds maximum limit" }, st)
  else
    let test_buffer := generate_binaural_beats config now
    let r := create_session st pyHash strOfConfig now config
    (.ok { session_id := r.1, config := config, status := "ready",
           estimated_quality := if config.carrier_freq < 500 then "high" else "medium" },
     r.2)

/-- `POST /beats/generate` (main.py lines 632-658): the whole body runs inside
`try ... except Exception as e: raise HTTPException(500, str(e))`, and FastAPI's
`HTTPException` subclasses `Exception`, so even the intended 400 rejection is
caught and re-raised as a 500 whose detail is `str` of the original error. -/
noncomputable def generate_beats (st : SessionManagerState) (pyHash : String → ℤ)
    (strOfConfig : BinauralConfig → String) (now : ℚ) (config : BinauralConfig) :
    Except HttpError GenerateResponse × SessionManagerState :=
  match generate_beats_body st pyHash strOfConfig now config with
  | (.error e, st1) => (.error { status_code := 500, detail := strOfHttpError e }, st1)
  | (.ok r, st1) => (.ok r, st1)

/-- Body of the `GET /sessions/{session_id}` response (main.py lines 669-676). -/
structure InfoResponse where
  session_id : String
  config : BinauralConfig
  start_time : ℚ
  duration_played : ℚ
  is_active : Bool
  progress : ℚ
deriving DecidableEq

/-- `GET /sessions/{session_id}` (main.py lines 660-676): 404 when the session
is unknown, else the session info with
`progress = min(duration_played / duration, 1.0) if duration else 0`. -/
def get_session_info (st : SessionManagerState) (session_id : String) (now : ℚ) :
    Except HttpError InfoResponse :=
  match dlookup st.sessions session_id with
  | none => .error { status_code := 404, detail := "Session not found" }
  | some session =>
    let duration_played := now - session.start_time
    .ok { session_id := session_id, config := session.config,
          start_time := session.start_time, duration_played := duration_played,
          is_active := session.is_active,
          progress :=
            if session.config.duration ≠ 0 then
              min (duration_played / (session.config.duration : ℚ)) 1
            else 0 }

/-- Body of the `DELETE /sessions/{session_id}` response (main.py line 682). -/
structure EndResponse where
  status : String
  session_id : String
deriving DecidableEq

/-- `DELETE /sessions/{session_id}` (main.py lines 678-682): unconditionally
calls `SessionManager.end_session` and returns a 200 acknowledgment; the route
never raises, so the `Except` result is always `.ok`. -/
def end_session_route (st : SessionManagerState) (session_id : String) :
    Except HttpError EndResponse × SessionManagerState :=
  (.ok { status := "session_ended", session_id := session_id }, end_session st session_id)

/-- Outcome of one `websocket.send_json` call, as seen by the streaming loop:
normal delivery, a `WebSocketDisconnect`, or any other exception (e.g. a
synthesis `HTTPException` or delivery fault) with its message. -/
inductive SendOutcome
  | ok
  | disconnect
  | fail (msg : String)

/-- The environment all of whose audio sends succeed. -/
def allOk : ℕ → SendOutcome := fun _ => .ok

/-- How the `while` loop of `websocket_audio_stream` was left. -/
inductive ExitKind
  | expired
  | disconnected
  | errored (msg : String)

/-- One observable transport action of `websocket_audio_stream`. -/
inductive WsEvent
  | accept
  | close (code : ℕ) (reason : String)
  | audio (left_channel right_channel : List ℝ) (timestamp : ℚ)
      (sample_rate buffer_size : ℕ)
  | json (status message : String)
  | sleep (seconds : ℚ)

/-- The audio message sent at wall-clock time `t` (main.py lines 702-714):
the freshly generated buffer's channels and timestamp plus the fixed
`SAMPLE_RATE` and `BUFFER_SIZE`. -/
noncomputable def audioEventAt (config : BinauralConfig) (t : ℚ) : WsEvent :=
  let audio_buffer := generate_binaural_beats config t
  .audio audio_buffer.left_channel audio_buffer.right_channel
    audio_buffer.timestamp SAMPLE_RATE BUFFER_SIZE

/-- The `while session.is_active and time.time() - start_time <
session.config.duration` loop (main.py lines 700-717), under ideal pacing: the
iteration observing elapsed time `elapsed` generates a buffer timestamped
`startT + elapsed`, sends it (outcome `env k` for the k-th send), then sleeps
`BUFFER_SIZE / SAMPLE_RATE` seconds, so the next check observes
`elapsed + bufferPeriod`. `fuel` bounds the recursion; `none` means the fuel
ran out before the loop finished (shown unreachable for the fuel chosen in
`websocket_audio_stream`). -/
noncomputable def streamLoopAux (config : BinauralConfig) (isActive : Bool)
    (env : ℕ → SendOutcome) (startT : ℚ) :
    ℕ → ℕ → ℚ → Option (List WsEvent × ExitKind)
  | 0, _, _ => none
  | fuel + 1, k, elapsed =>
    if isActive ∧ elapsed < (config.duration : ℚ) then
      match env k with
      | .ok =>
        (streamLoopAux config isActive env startT fuel (k + 1) (elapsed + bufferPeriod)).map
          (fun r =>
            (audioEventAt config (startT + elapsed) :: WsEvent.sleep bufferPeriod :: r.1,
             r.2))
      | .disconnect => some ([], .disconnected)
      | .fail msg => some ([], .errored msg)
    else
      some ([], .expired)

/-- `websocket_audio_stream` (main.py lines 684-728): accept; close with code
4004 if the session id is unknown; otherwise register the connection, run the
streaming loop from elapsed time 0, append the terminal message of the exit
path (`completed` on duration expiry, nothing on disconnect, `error` on any
other failure), and in every case run the `finally: end_session`. `now` is the
`time.time()` value taken as `start_time`. -/
noncomputable def websocket_audio_stream (st : SessionManagerState) (session_id : String)
    (env : ℕ → SendOutcome) (now : ℚ) : List WsEvent × SessionManagerState :=
  match dlookup st.sessions session_id with
  | none => ([.accept, .close 4004 "Session not found"], st)
  | some session =>
    let st1 : SessionManagerState :=
      { st with active_connections := connInsert st.active_connections session_id }
    match streamLoopAux session.config session.is_active env now
        (SAMPLE_RATE * session.config.duration + 1) 0 0 with
    | none => ([.accept], st1)
    | some (evs, .expired) =>
        (.accept :: (evs ++ [.json "completed" "Session finished"]),
         end_session st1 session_id)
    | some (evs, .disconnected) => (.accept :: evs, end_session st1 session_id)
    | some (evs, .errored msg) =>
        (.accept :: (evs ++ [.json "error" msg]), end_session st1 session_id)

/-! ## Helper lemmas -/

theorem pyIntOfRat_of_nonneg {x : ℚ} (hx : 0 ≤ x) : pyIntOfRat x = ⌊x⌋ :=
  if_pos hx

theorem generate_waveform_length (frequency duration : ℚ) (w : Waveform) :
    (generate_waveform frequency duration w).length
      = (pyIntOfRat (duration * (SAMPLE_RATE : ℚ))).toNat := by
  simp only [generate_waveform, linspace0, List.length_map, List.length_range]

theorem generate_waveform_get (frequency duration : ℚ) (w : Waveform) (i : ℕ)
    (hi : i < (pyIntOfRat (duration * (SAMPLE_RATE : ℚ))).toNat) :
    (generate_waveform frequency duration w)[i]? =
      some (sampleAt w frequency
        (duration * i / (pyIntOfRat (duration * (SAMPLE_RATE : ℚ))).toNat)) := by
  simp only [generate_waveform, linspace0, List.getElem?_map, List.getElem?_range hi,
    Option.map_some']

theorem dlookup_dinsert_self {α : Type} (l : List (String × α)) (k : String) (v : α) :
    dlookup (dinsert l k v) k = some v := by
  induction l with
  | nil => simp [dinsert, dlookup]
  | cons hd tl ih =>
    obtain ⟨a, b⟩ := hd
    by_cases h : a = k
    · simp [dinsert, h, dlookup]
    · simp [dinsert, h, dlookup, ih]

theorem dlookup_dinsert_ne {α : Type} (l : List (String × α)) (k q : String) (v : α)
    (hne : q ≠ k) : dlookup (dinsert l k v) q = dlookup l q := by
  induction l with
  | nil => simp [dinsert, dlookup, Ne.symm hne]
  | cons hd tl ih =>
    obtain ⟨a, b⟩ := hd
    by_cases h : a = k
    · subst h
      simp [dinsert, dlookup, Ne.symm hne]
    · simp only [dinsert, h, if_false]
      by_cases hq : a = q
      · simp [dlookup, hq]
      · simp [dlookup, hq, ih]

theorem dlookup_dmodify_self {α : Type} (l : List (String × α)) (k : String)
    (f : α → α) : dlookup (dmodify l k f) k = (dlookup l k).map f := by
  induction l with
  | nil => simp [dmodify, dlookup]
  | cons hd tl ih =>
    obtain ⟨a, b⟩ := hd
    by_cases h : a = k
    · simp [dmodify, h, dlookup]
    · simp [dmodify, h, dlookup, ih]

theorem mem_connInsert_self (conns : List String) (k : String) :
    k ∈ connInsert conns k := by
  by_cases h : k ∈ conns <;> simp [connInsert, h]

theorem connInsert_nodup (conns : List String) (k : String) (h : conns.Nodup) :
    (connInsert conns k).Nodup := by
  by_cases hm : k ∈ conns
  · simpa [connInsert, hm] using h
  · simp only [connInsert, hm, if_false]
    refine List.Nodup.append h (List.nodup_singleton k) ?_
    intro a ha hmem
    simp only [List.mem_singleton] at hmem
    exact hm (hmem ▸ ha)

/-- `end_session` on a registered session: the registry entry survives with its
active flag cleared, and the transport registration is gone. -/
theorem end_session_found (st : SessionManagerState) (sid : String) (sd : SessionData)
    (hs : dlookup st.sessions sid = some sd) (hnd : st.active_connections.Nodup) :
    dlookup (end_session st sid).sessions sid = some { sd with is_active := false } ∧
    sid ∉ (end_session st sid).active_connections := by
  unfold end_session
  rw [hs]
  simp only [Option.isSome_some, if_true]
  refine ⟨?_, ?_⟩
  · rw [dlookup_dmodify_self, hs]
    rfl
  · by_cases hm : sid ∈ st.active_connections
    · simp only [hm, if_true]
      intro hmem
      exact ((List.Nodup.mem_erase_iff hnd).1 hmem).1 rfl
    · simp [hm]

/-- One-step unfolding of the streaming loop. -/
theorem streamLoopAux_succ (config : BinauralConfig) (isActive : Bool)
    (env : ℕ → SendOutcome) (startT : ℚ) (fuel k : ℕ) (elapsed : ℚ) :
    streamLoopAux config isActive env startT (fuel + 1) k elapsed =
      if isActive ∧ elapsed < (config.duration : ℚ) then
        match env k with
        | .ok =>
          (streamLoopAux config isActive env startT fuel (k + 1)
              (elapsed + bufferPeriod)).map
            (fun r =>
              (audioEventAt config (startT + elapsed) :: WsEvent.sleep bufferPeriod :: r.1,
               r.2))
        | .disconnect => some ([], .disconnected)
        | .fail msg => some ([], .errored msg)
      else some ([], .expired) := rfl

/-- With the fuel bound `duration ≤ elapsed + fuel * bufferPeriod`, the loop
always terminates within the fuel, whatever the send outcomes are. -/
theorem streamLoopAux_isSome (config : BinauralConfig) (isActive : Bool)
    (env : ℕ → SendOutcome) (startT : ℚ) :
    ∀ (fuel k : ℕ) (elapsed : ℚ),
      (config.duration : ℚ) ≤ elapsed + fuel * bufferPeriod →
      (streamLoopAux config isActive env startT (fuel + 1) k elapsed).isSome := by
  intro fuel
  induction fuel with
  | zero =>
    intro k e he
    simp only [Nat.cast_zero, zero_mul, add_zero] at he
    have hc : ¬ (isActive = true ∧ e < (config.duration : ℚ)) := by
      rintro ⟨-, hlt⟩
      exact absurd (lt_of_lt_of_le hlt he) (lt_irrefl _)
    rw [streamLoopAux_succ, if_neg hc]
    simp
  | succ n ih =>
    intro k e he
    rw [streamLoopAux_succ]
    by_cases hc : isActive = true ∧ e < (config.duration : ℚ)
    · rw [if_pos hc]
      cases henv : env k with
      | ok =>
        simp only [Option.isSome_map']
        exact ih (k + 1) (e + bufferPeriod) (by push_cast at he ⊢; linarith)
      | disconnect => simp
      | fail msg => simp
    · rw [if_neg hc]
      simp

/-- Closed form of the streaming loop when the session is active and every
send succeeds: some number `m` of audio-then-sleep blocks at elapsed times
`elapsed + j * bufferPeriod`, all strictly below the duration, followed by the
`expired` exit as soon as the elapsed time reaches the duration. -/
theorem streamLoopAux_allOk (config : BinauralConfig) (startT : ℚ) :
    ∀ (fuel k : ℕ) (elapsed : ℚ),
      (config.duration : ℚ) ≤ elapsed + fuel * bufferPeriod →
      ∃ m : ℕ,
        streamLoopAux config true allOk startT (fuel + 1) k elapsed =
          some (((List.range m).map (fun (j : ℕ) =>
              [audioEventAt config (startT + elapsed + j * bufferPeriod),
               WsEvent.sleep bufferPeriod])).flatten, .expired) ∧
        (∀ j : ℕ, j < m → elapsed + j * bufferPeriod < (config.duration : ℚ)) ∧
        (config.duration : ℚ) ≤ elapsed + m * bufferPeriod := by
  intro fuel
  induction fuel with
  | zero =>
    intro k e he
    simp only [Nat.cast_zero, zero_mul, add_zero] at he
    refine ⟨0, ?_, by intro j hj; exact absurd hj (Nat.not_lt_zero j), by simpa using he⟩
    have hc : ¬ ((true : Bool) = true ∧ e < (config.duration : ℚ)) := by
      rintro ⟨-, hlt⟩
      exact absurd (lt_of_lt_of_le hlt he) (lt_irrefl _)
    rw [streamLoopAux_succ, if_neg hc]
    simp
  | succ n ih =>
    intro k e he
    by_cases hlt : e < (config.duration : ℚ)
    · obtain ⟨m, hEq, hAll, hGe⟩ :=
        ih (k + 1) (e + bufferPeriod) (by push_cast at he ⊢; linarith)
      refine ⟨m + 1, ?_, ?_, by push_cast at hGe ⊢; linarith⟩
      · rw [streamLoopAux_succ, if_pos ⟨rfl, hlt⟩]
        show (streamLoopAux config true allOk startT (n + 1) (k + 1)
            (e + bufferPeriod)).map _ = _
        rw [hEq, Option.map_some']
        refine congrArg some (Prod.ext ?_ rfl)
        show audioEventAt config (startT + e) :: WsEvent.sleep bufferPeriod ::
            ((List.range m).map (fun (j : ℕ) =>
              [audioEventAt config (startT + (e + bufferPeriod) + j * bufferPeriod),
               WsEvent.sleep bufferPeriod])).flatten =
          ((List.range (m + 1)).map (fun (j : ℕ) =>
              [audioEventAt config (startT + e + j * bufferPeriod),
               WsEvent.sleep bufferPeriod])).flatten
        rw [List.range_succ_eq_map, List.map_cons, List.map_map, List.flatten_cons]
        simp only [Nat.cast_zero, zero_mul, add_zero, List.cons_append, List.nil_append]
        refine congrArg₂ _ rfl (congrArg₂ _ rfl (congrArg List.flatten ?_))
        refine List.map_congr_left ?_
        intro j hj
        simp only [Function.comp_apply]
        have : startT + (e + bufferPeriod) + (j : ℚ) * bufferPeriod
            = startT + e + ((j : ℕ).succ : ℚ) * bufferPeriod := by
          push_cast
          ring
        rw [this]
      · intro j hj
        cases j with
        | zero => simpa using hlt
        | succ j' =>
          have := hAll j' (Nat.lt_of_succ_lt_succ hj)
          push_cast at this ⊢
          linarith
    · refine ⟨0, ?_, by intro j hj; exact absurd hj (Nat.not_lt_zero j), ?_⟩
      · have hc : ¬ ((true : Bool) = true ∧ e < (config.duration : ℚ)) := by
          rintro ⟨-, h⟩
          exact hlt h
        rw [streamLoopAux_succ, if_neg hc]
        simp
      · simpa using le_of_not_lt hlt

/-! ## Concrete fixtures -/

/-- A config whose fields all satisfy the pydantic bounds but whose combined
frequency `980 + 30 = 1010` exceeds 1000 Hz. -/
def cfgOver : BinauralConfig :=
  { carrier_freq := 980, beat_freq := 30, waveform := .sine, duration := 60, volume := 1/2 }

/-- A small valid config used by concrete witnesses. -/
def cfgSmall : BinauralConfig :=
  { carrier_freq := 200, beat_freq := 10, waveform := .sine, duration := 1, volume := 1/2 }

/-- An active session fixture. -/
def sdActive : SessionData :=
  { session_id := "s0", config := cfgSmall, start_time := 0, is_active := true }

/-- An inactive session fixture. -/
def sdInactive : SessionData :=
  { session_id := "s1", config := cfgSmall, start_time := 0, is_active := false }

/-- The empty server state. -/
def emptyState : SessionManagerState := { sessions := [], active_connections := [] }

/-- A server state holding one active session `s0`. -/
def stWithActive : SessionManagerState :=
  { sessions := [("s0", sdActive)], active_connections := [] }

/-- A server state holding one inactive session `s1`. -/
def stWithInactive : SessionManagerState :=
  { sessions := [("s1", sdInactive)], active_connections := [] }

/-! ## Claims -/

/-- C1: a `BinauralConfig` whose fields are within their pydantic ranges but
whose `carrier_freq + beat_freq` exceeds 1000 is indeed rejected by
`generate_beats` with no session created (the state is returned unchanged) —
but the response is a 500, not a 400: the route's `except Exception` catches
the intended `HTTPException(400)` and re-raises it as
`HTTPException(500, str(e))`. The claim's 400-class status is contradicted by
the code even though the code's own `raise` shows 400 was intended. -/
theorem C1_generate_beats_rejects_with_500 (st : SessionManagerState)
    (pyHash : String → ℤ) (strOfConfig : BinauralConfig → String) (now : ℚ) :
    validConfig cfgOver ∧ cfgOver.carrier_freq + cfgOver.beat_freq > 1000 ∧
    generate_beats st pyHash strOfConfig now cfgOver =
      (.error { status_code := 500,
                detail := "400: Combined frequency exceeds maximum limit" }, st) := by
  refine ⟨by norm_num [validConfig, cfgOver], by norm_num [cfgOver], ?_⟩
  have hbody : generate_beats_body st pyHash strOfConfig now cfgOver =
      (.error { status_code := 400, detail := "Combined frequency exceeds maximum limit" },
       st) := by
    unfold generate_beats_body
    rw [if_pos (by norm_num [cfgOver] :
      cfgOver.carrier_freq + cfgOver.beat_freq > 1000)]
  unfold generate_beats
  rw [hbody]
  rfl

/-- C2: for every supported waveform kind and all `f > 0`, `d > 0`, the
synthesizer returns exactly `⌊d * 44100⌋` samples (`int` truncation equals
`floor` for the nonnegative product). -/
theorem C2_waveform_length (f d : ℚ) (w : Waveform) (hf : 0 < f) (hd : 0 < d) :
    ((generate_waveform f d w).length : ℤ) = ⌊d * (SAMPLE_RATE : ℚ)⌋ := by
  have hnn : (0 : ℚ) ≤ d * (SAMPLE_RATE : ℚ) :=
    mul_nonneg hd.le (by norm_num [SAMPLE_RATE])
  rw [generate_waveform_length, pyIntOfRat_of_nonneg hnn]
  exact Int.toNat_of_nonneg (Int.floor_nonneg.2 hnn)

/-- C2 witness at `f = 1`, `d = 1`, sine. -/
theorem C2_waveform_length_witness :
    (0 : ℚ) < 1 ∧
    ((generate_waveform 1 1 Waveform.sine).length : ℤ) = ⌊(1 : ℚ) * (SAMPLE_RATE : ℚ)⌋ :=
  ⟨by norm_num, C2_waveform_length 1 1 Waveform.sine (by norm_num) (by norm_num)⟩

/-- C3 counterexample: the claim places the i-th sample at `t_i = i / 44100`,
but `np.linspace(0, d, N, False)` places it at `t_i = i * d / N`. With
`d = 5/88200` (so `d * 44100 = 5/2`, `N = 2`) the sawtooth sample at index 1
is taken at `t = 5/176400`, not `1/44100`, and the two sample values differ. -/
theorem C3_counterexample :
    (generate_waveform 1 (5/88200) Waveform.sawtooth)[1]? ≠
      some (sampleAt Waveform.sawtooth 1 ((1 : ℚ) / (SAMPLE_RATE : ℚ))) := by
  have hN : (pyIntOfRat ((5/88200 : ℚ) * (SAMPLE_RATE : ℚ))).toNat = 2 := by
    rw [pyIntOfRat_of_nonneg (by norm_num [SAMPLE_RATE])]
    norm_num [SAMPLE_RATE]
    rfl
  have h1 := generate_waveform_get 1 (5/88200) Waveform.sawtooth 1 (by rw [hN]; norm_num)
  rw [hN] at h1
  rw [h1]
  simp only [sampleAt, Ne, Option.some.injEq, Rat.cast_inj]
  norm_num [sawtoothSample, SAMPLE_RATE]

/-- C3 amended: for every supported waveform kind, `f > 0`, `d > 0` and
`i < N = ⌊d * 44100⌋`, the i-th sample equals the per-kind formula evaluated at
the linspace time `t_i = d * i / N` (which equals `i / 44100` exactly when
`d * 44100` is an integer — in particular for the streaming buffer duration). -/
theorem C3_sample_formula (f d : ℚ) (w : Waveform) (hf : 0 < f) (hd : 0 < d)
    (i : ℕ) (hi : i < (⌊d * (SAMPLE_RATE : ℚ)⌋).toNat) :
    (generate_waveform f d w)[i]? =
      some (sampleAt w f (d * i / ((⌊d * (SAMPLE_RATE : ℚ)⌋).toNat : ℚ))) := by
  have hnn : (0 : ℚ) ≤ d * (SAMPLE_RATE : ℚ) :=
    mul_nonneg hd.le (by norm_num [SAMPLE_RATE])
  have hpy : pyIntOfRat (d * (SAMPLE_RATE : ℚ)) = ⌊d * (SAMPLE_RATE : ℚ)⌋ :=
    pyIntOfRat_of_nonneg hnn
  rw [← hpy] at hi
  have := generate_waveform_get f d w i hi
  rw [hpy] at this
  exact this

/-- C3 amended-claim witness at `f = 1`, `d = 1`, sine, `i = 0`. -/
theorem C3_sample_formula_witness :
    (0 : ℚ) < 1 ∧ 0 < (⌊(1 : ℚ) * (SAMPLE_RATE : ℚ)⌋).toNat ∧
    (generate_waveform 1 1 Waveform.sine)[0]? =
      some (sampleAt Waveform.sine 1
        ((1 : ℚ) * (0 : ℕ) / ((⌊(1 : ℚ) * (SAMPLE_RATE : ℚ)⌋).toNat : ℚ))) :=
  ⟨by norm_num, by norm_num [SAMPLE_RATE],
   C3_sample_formula 1 1 Waveform.sine (by norm_num) (by norm_num) 0
     (by norm_num [SAMPLE_RATE])⟩

/-- C4: for every valid config, the left channel is built at `carrier_freq`,
the right channel at `carrier_freq + beat_freq`, both for the fixed buffer
duration `1024/44100` s (hence exactly 1024 samples each, at times `i/44100`),
with every sample multiplied by `volume`; the result is independent of the
session's total `duration`. -/
theorem C4_binaural_pairing (config : BinauralConfig) (now : ℚ) (d2 : ℕ) (i : ℕ)
    (hv : validConfig config) (hi : i < BUFFER_SIZE) :
    (generate_binaural_beats config now).left_channel.length = BUFFER_SIZE ∧
    (generate_binaural_beats config now).right_channel.length = BUFFER_SIZE ∧
    (generate_binaural_beats config now).left_channel[i]? =
      some (sampleAt config.waveform config.carrier_freq
        ((i : ℚ) / (SAMPLE_RATE : ℚ)) * (config.volume : ℝ)) ∧
    (generate_binaural_beats config now).right_channel[i]? =
      some (sampleAt config.waveform (config.carrier_freq + config.beat_freq)
        ((i : ℚ) / (SAMPLE_RATE : ℚ)) * (config.volume : ℝ)) ∧
    generate_binaural_beats { config with duration := d2 } now =
      generate_binaural_beats config now := by
  have hBuf : (pyIntOfRat ((BUFFER_SIZE : ℚ) / (SAMPLE_RATE : ℚ) * (SAMPLE_RATE : ℚ))).toNat
      = BUFFER_SIZE := by
    rw [pyIntOfRat_of_nonneg (by norm_num [SAMPLE_RATE, BUFFER_SIZE])]
    norm_num [SAMPLE_RATE, BUFFER_SIZE]
    rfl
  have hlen : ∀ fr : ℚ,
      ((generate_waveform fr ((BUFFER_SIZE : ℚ) / (SAMPLE_RATE : ℚ)) config.waveform).map
        (fun x => x * (config.volume : ℝ))).length = BUFFER_SIZE := by
    intro fr
    rw [List.length_map, generate_waveform_length, hBuf]
  have hget : ∀ fr : ℚ,
      ((generate_waveform fr ((BUFFER_SIZE : ℚ) / (SAMPLE_RATE : ℚ)) config.waveform).map
        (fun x => x * (config.volume : ℝ)))[i]? =
      some (sampleAt config.waveform fr ((i : ℚ) / (SAMPLE_RATE : ℚ)) *
        (config.volume : ℝ)) := by
    intro fr
    have hi' : i < (pyIntOfRat ((BUFFER_SIZE : ℚ) / (SAMPLE_RATE : ℚ) *
        (SAMPLE_RATE : ℚ))).toNat := by
      rw [hBuf]; exact hi
    have hbase := generate_waveform_get fr ((BUFFER_SIZE : ℚ) / (SAMPLE_RATE : ℚ))
      config.waveform i hi'
    rw [hBuf] at hbase
    rw [List.getElem?_map, hbase, Option.map_some']
    have ht : (BUFFER_SIZE : ℚ) / (SAMPLE_RATE : ℚ) * (i : ℚ) / ((BUFFER_SIZE : ℕ) : ℚ)
        = (i : ℚ) / (SAMPLE_RATE : ℚ) := by
      norm_num [SAMPLE_RATE, BUFFER_SIZE]
      ring
    rw [ht]
  exact ⟨hlen _, hlen _, hget _, hget _, rfl⟩

/-- C4 witness at the small valid config, `i = 0`, duration replaced by 5. -/
theorem C4_binaural_pairing_witness :
    validConfig cfgSmall ∧ 0 < BUFFER_SIZE ∧
    (generate_binaural_beats cfgSmall 0).left_channel.length = BUFFER_SIZE :=
  ⟨by norm_num [validConfig, cfgSmall], by norm_num [BUFFER_SIZE],
   (C4_binaural_pairing cfgSmall 0 5 0 (by norm_num [validConfig, cfgSmall])
     (by norm_num [BUFFER_SIZE])).1⟩

/-- C5 counterexample: the stream handler only checks that the session exists,
not that it is active. For a registered but inactive session the connection is
NOT terminated with the not-found close code: the loop is skipped and a
terminal `completed` message is sent instead. -/
theorem C5_counterexample :
    (websocket_audio_stream stWithInactive "s1" allOk 0).1 =
      [WsEvent.accept, WsEvent.json "completed" "Session finished"] ∧
    (websocket_audio_stream stWithInactive "s1" allOk 0).1 ≠
      [WsEvent.accept, WsEvent.close 4004 "Session not found"] := by
  have hl : dlookup stWithInactive.sessions "s1" = some sdInactive := rfl
  have h1 : (websocket_audio_stream stWithInactive "s1" allOk 0).1 =
      [WsEvent.accept, WsEvent.json "completed" "Session finished"] := by
    unfold websocket_audio_stream
    rw [hl]
    have hact : sdInactive.is_active = false := rfl
    simp only [hact, streamLoopAux_succ]
    have hc : ¬ ((false : Bool) = true ∧ (0 : ℚ) < (sdInactive.config.duration : ℚ)) := by
      simp
    rw [if_neg hc]
    rfl
  refine ⟨h1, ?_⟩
  rw [h1]
  simp

/-- C5 amended: on stream start, for an UNKNOWN session identifier the
connection is closed immediately with the distinct code 4004, no audio buffer
is delivered and the state is untouched; for a session that exists but is not
marked active, the streaming loop is never entered and no audio buffer is
delivered, but instead of a not-found close the client receives the terminal
`completed` message. -/
theorem C5_stream_start (st : SessionManagerState) (session_id : String)
    (env : ℕ → SendOutcome) (now : ℚ) :
    (dlookup st.sessions session_id = none →
      websocket_audio_stream st session_id env now =
        ([.accept, .close 4004 "Session not found"], st)) ∧
    (∀ sd : SessionData, dlookup st.sessions session_id = some sd →
      sd.is_active = false →
      (websocket_audio_stream st session_id env now).1 =
        [.accept, .json "completed" "Session finished"]) := by
  constructor
  · intro hnone
    unfold websocket_audio_stream
    rw [hnone]
  · intro sd hsome hinactive
    unfold websocket_audio_stream
    rw [hsome]
    simp only [hinactive, streamLoopAux_succ]
    have hc : ¬ ((false : Bool) = true ∧ (0 : ℚ) < (sd.config.duration : ℚ)) := by
      simp
    rw [if_neg hc]
    rfl

/-- C5 amended-claim witness: unknown id on the empty state, and the inactive
session fixture. -/
theorem C5_stream_start_witness :
    (dlookup emptyState.sessions "zz" = none ∧
      websocket_audio_stream emptyState "zz" allOk 0 =
        ([.accept, .close 4004 "Session not found"], emptyState)) ∧
    (dlookup stWithInactive.sessions "s1" = some sdInactive ∧
      sdInactive.is_active = false ∧
      (websocket_audio_stream stWithInactive "s1" allOk 0).1 =
        [.accept, .json "completed" "Session finished"]) :=
  ⟨⟨rfl, (C5_stream_start emptyState "zz" allOk 0).1 rfl⟩,
   ⟨rfl, rfl, (C5_stream_start stWithInactive "s1" allOk 0).2 sdInactive rfl rfl⟩⟩

/-- C6: with every delivery succeeding and the session active, the handler's
trace is: accept, then one audio message (left/right channels, timestamp,
`sample_rate = 44100`, `buffer_size = 1024`) followed by a `bufferPeriod`
sleep for each elapsed time `k * bufferPeriod` strictly below the configured
duration, and exactly one terminal `completed` message after all audio; the
loop stops at the first elapsed time reaching the duration. -/
theorem C6_streaming_trace (st : SessionManagerState) (session_id : String)
    (sd : SessionData) (now : ℚ)
    (hs : dlookup st.sessions session_id = some sd) (hA : sd.is_active = true) :
    ∃ n : ℕ,
      (websocket_audio_stream st session_id allOk now).1 =
        .accept ::
          (((List.range n).map (fun (k : ℕ) =>
              [audioEventAt sd.config (now + k * bufferPeriod),
               WsEvent.sleep bufferPeriod])).flatten ++
           [.json "completed" "Session finished"]) ∧
      (∀ k : ℕ, k < n → (k : ℚ) * bufferPeriod < (sd.config.duration : ℚ)) ∧
      (sd.config.duration : ℚ) ≤ n * bufferPeriod := by
  have hfuel : (sd.config.duration : ℚ) ≤
      0 + ((SAMPLE_RATE * sd.config.duration : ℕ) : ℚ) * bufferPeriod := by
    have h0 : (0 : ℚ) ≤ (sd.config.duration : ℚ) := Nat.cast_nonneg _
    push_cast
    rw [bufferPeriod]
    norm_num [SAMPLE_RATE, BUFFER_SIZE]
    nlinarith
  obtain ⟨m, hEq, hAll, hGe⟩ :=
    streamLoopAux_allOk sd.config now (SAMPLE_RATE * sd.config.duration) 0 0 hfuel
  refine ⟨m, ?_, ?_, ?_⟩
  · unfold websocket_audio_stream
    simp only [hs, hA, hEq]
    simp only [zero_add, add_zero]
  · intro k hk
    have := hAll k hk
    simpa using this
  · simpa using hGe

/-- C6 witness on the active one-second session fixture. -/
theorem C6_streaming_trace_witness :
    dlookup stWithActive.sessions "s0" = some sdActive ∧
    sdActive.is_active = true ∧
    ∃ n : ℕ,
      (websocket_audio_stream stWithActive "s0" allOk 0).1 =
        .accept ::
          (((List.range n).map (fun (k : ℕ) =>
              [audioEventAt sdActive.config ((0 : ℚ) + k * bufferPeriod),
               WsEvent.sleep bufferPeriod])).flatten ++
           [.json "completed" "Session finished"]) ∧
      (∀ k : ℕ, k < n → (k : ℚ) * bufferPeriod < (sdActive.config.duration : ℚ)) ∧
      (sdActive.config.duration : ℚ) ≤ n * bufferPeriod :=
  ⟨rfl, rfl, C6_streaming_trace stWithActive "s0" sdActive 0 rfl rfl⟩

/-- C7: whatever the send outcomes are (all-ok duration expiry, a client
disconnect, or a synthesis/delivery failure at any iteration), once the
handler returns, the session's active flag is false and its identifier is no
longer in the active-connection set — the `finally: end_session` cleanup runs
on every exit path. -/
theorem C7_cleanup_all_paths (st : SessionManagerState) (session_id : String)
    (sd : SessionData) (env : ℕ → SendOutcome) (now : ℚ)
    (hs : dlookup st.sessions session_id = some sd)
    (hnd : st.active_connections.Nodup) :
    dlookup (websocket_audio_stream st session_id env now).2.sessions session_id =
      some { sd with is_active := false } ∧
    session_id ∉ (websocket_audio_stream st session_id env now).2.active_connections := by
  have hfuel : (sd.config.duration : ℚ) ≤
      0 + ((SAMPLE_RATE * sd.config.duration : ℕ) : ℚ) * bufferPeriod := by
    have h0 : (0 : ℚ) ≤ (sd.config.duration : ℚ) := Nat.cast_nonneg _
    push_cast
    rw [bufferPeriod]
    norm_num [SAMPLE_RATE, BUFFER_SIZE]
    nlinarith
  have hSome := streamLoopAux_isSome sd.config sd.is_active env now
    (SAMPLE_RATE * sd.config.duration) 0 0 hfuel
  obtain ⟨r, hr⟩ := Option.isSome_iff_exists.1 hSome
  have hend := end_session_found
    { sessions := st.sessions,
      active_connections := connInsert st.active_connections session_id }
    session_id sd hs (connInsert_nodup _ _ hnd)
  unfold websocket_audio_stream
  simp only [hs, hr]
  obtain ⟨evs, ek⟩ := r
  cases ek with
  | expired => exact hend
  | disconnected => exact hend
  | errored msg => exact hend

/-- C7 witness on the active session fixture with the all-ok environment. -/
theorem C7_cleanup_all_paths_witness :
    dlookup stWithActive.sessions "s0" = some sdActive ∧
    stWithActive.active_connections.Nodup ∧
    (dlookup (websocket_audio_stream stWithActive "s0" allOk 0).2.sessions "s0" =
      some { sdActive with is_active := false } ∧
    "s0" ∉ (websocket_audio_stream stWithActive "s0" allOk 0).2.active_connections) :=
  ⟨rfl, List.nodup_nil,
   C7_cleanup_all_paths stWithActive "s0" sdActive allOk 0 rfl List.nodup_nil⟩

/-- C8 counterexample: ending a session does NOT remove its registry entry.
After `end_session` on the active fixture, a lookup still finds the session
(now marked inactive) instead of finding nothing. -/
theorem C8_counterexample :
    get_session (end_session stWithActive "s0") "s0" =
      some { sdActive with is_active := false } ∧
    get_session (end_session stWithActive "s0") "s0" ≠ none := by
  refine ⟨rfl, ?_⟩
  intro h
  simp [get_session, end_session, stWithActive, sdActive, dlookup, dmodify] at h

/-- C8 amended: when a session is ended (directly or from the streaming
loop's cleanup), its registry entry is kept but marked inactive — a subsequent
lookup still finds the session, with `is_active = false` — and its transport
registration is removed from the active-connection set. -/
theorem C8_end_session_marks_inactive (st : SessionManagerState) (session_id : String)
    (sd : SessionData) (hs : dlookup st.sessions session_id = some sd)
    (hnd : st.active_connections.Nodup) :
    get_session (end_session st session_id) session_id =
      some { sd with is_active := false } ∧
    session_id ∉ (end_session st session_id).active_connections :=
  end_session_found st session_id sd hs hnd

/-- C8 amended-claim witness on the active session fixture. -/
theorem C8_end_session_marks_inactive_witness :
    dlookup stWithActive.sessions "s0" = some sdActive ∧
    stWithActive.active_connections.Nodup ∧
    (get_session (end_session stWithActive "s0") "s0" =
      some { sdActive with is_active := false } ∧
    "s0" ∉ (end_session stWithActive "s0").active_connections) :=
  ⟨rfl, List.nodup_nil,
   C8_end_session_marks_inactive stWithActive "s0" sdActive rfl List.nodup_nil⟩

/-- C9 counterexample: terminating an UNKNOWN session does not surface an
error — `end_session` silently no-ops and the DELETE route answers with the
same 200 `session_ended` acknowledgment, leaving the state unchanged. -/
theorem C9_counterexample :
    dlookup emptyState.sessions "nope" = none ∧
    end_session_route emptyState "nope" =
      (.ok { status := "session_ended", session_id := "nope" }, emptyState) :=
  ⟨rfl, rfl⟩

/-- C9 amended: for an unknown session identifier, the query route answers 404
`Session not found` and the stream endpoint closes with the distinct code 4004
without delivering anything; the terminate route, however, succeeds with the
ordinary `session_ended` acknowledgment (a silent no-op), leaving the state
unchanged in all three cases. -/
theorem C9_unknown_session (st : SessionManagerState) (session_id : String)
    (env : ℕ → SendOutcome) (now : ℚ)
    (hnone : dlookup st.sessions session_id = none) :
    get_session_info st session_id now =
      .error { status_code := 404, detail := "Session not found" } ∧
    websocket_audio_stream st session_id env now =
      ([.accept, .close 4004 "Session not found"], st) ∧
    end_session_route st session_id =
      (.ok { status := "session_ended", session_id := session_id }, st) := by
  refine ⟨?_, ?_, ?_⟩
  · unfold get_session_info
    rw [hnone]
  · unfold websocket_audio_stream
    rw [hnone]
  · unfold end_session_route end_session
    rw [hnone]
    simp

/-- C9 amended-claim witness on the empty state. -/
theorem C9_unknown_session_witness :
    dlookup emptyState.sessions "x" = none ∧
    (get_session_info emptyState "x" 0 =
      .error { status_code := 404, detail := "Session not found" } ∧
    websocket_audio_stream emptyState "x" allOk 0 =
      ([.accept, .close 4004 "Session not found"], emptyState) ∧
    end_session_route emptyState "x" =
      (.ok { status := "session_ended", session_id := "x" }, emptyState)) :=
  ⟨rfl, C9_unknown_session emptyState "x" allOk 0 rfl⟩

/-- C10: the identifier produced by `create_session` is exactly
`session_<int(now)>_<hash(str(config)) % 10000>`, so two creations in the same
wall-clock second (`int(now1) = int(now2)`) with equal configs yield the same
identifier, and the second `dict` store overwrites the first session's
registry entry: afterwards the identifier maps to the second session and every
other key is untouched — identifiers are not unique. -/
theorem C10_session_id_collision (st : SessionManagerState) (pyHash : String → ℤ)
    (strOfConfig : BinauralConfig → String) (now1 now2 : ℚ) (config : BinauralConfig)
    (hsec : pyIntOfRat now1 = pyIntOfRat now2) :
    (create_session st pyHash strOfConfig now1 config).1 =
      "session_" ++ toString (pyIntOfRat now1) ++ "_" ++
        toString (pyHash (strOfConfig config) % 10000) ∧
    (create_session (create_session st pyHash strOfConfig now1 config).2
        pyHash strOfConfig now2 config).1 =
      (create_session st pyHash strOfConfig now1 config).1 ∧
    ∀ q : String,
      dlookup (create_session (create_session st pyHash strOfConfig now1 config).2
          pyHash strOfConfig now2 config).2.sessions q =
        if q = (create_session st pyHash strOfConfig now1 config).1 then
          some { session_id := (create_session st pyHash strOfConfig now2 config).1,
                 config := config, start_time := now2, is_active := true }
        else dlookup st.sessions q := by
  have hid : ("session_" ++ toString (pyIntOfRat now2) ++ "_" ++
        toString (pyHash (strOfConfig config) % 10000)) =
      "session_" ++ toString (pyIntOfRat now1) ++ "_" ++
        toString (pyHash (strOfConfig config) % 10000) := by
    rw [hsec]
  refine ⟨rfl, ?_, ?_⟩
  · simp only [create_session, hid]
  · intro q
    simp only [create_session, hid]
    by_cases hq : q = "session_" ++ toString (pyIntOfRat now1) ++ "_" ++
        toString (pyHash (strOfConfig config) % 10000)
    · rw [if_pos hq, hq, dlookup_dinsert_self]
    · rw [if_neg hq, dlookup_dinsert_ne _ _ _ _ hq, dlookup_dinsert_ne _ _ _ _ hq]

/-- C10 witness: two creations at the same wall-clock second 5. -/
theorem C10_session_id_collision_witness :
    pyIntOfRat 5 = pyIntOfRat 5 ∧
    ((create_session emptyState (fun _ => 0) (fun _ => "c") 5 cfgSmall).1 =
      "session_" ++ toString (pyIntOfRat 5) ++ "_" ++
        toString ((fun (_ : String) => (0 : ℤ)) "c" % 10000) ∧
    (create_session (create_session emptyState (fun _ => 0) (fun _ => "c") 5 cfgSmall).2
        (fun _ => 0) (fun _ => "c") 5 cfgSmall).1 =
      (create_session emptyState (fun _ => 0) (fun _ => "c") 5 cfgSmall).1 ∧
    ∀ q : String,
      dlookup (create_session
          (create_session emptyState (fun _ => 0) (fun _ => "c") 5 cfgSmall).2
          (fun _ => 0) (fun _ => "c") 5 cfgSmall).2.sessions q =
        if q = (create_session emptyState (fun _ => 0) (fun _ => "c") 5 cfgSmall).1 then
          some { session_id :=
                   (create_session emptyState (fun _ => 0) (fun _ => "c") 5 cfgSmall).1,
                 config := cfgSmall, start_time := 5, is_active := true }
        else dlookup emptyState.sessions q) :=
  ⟨rfl, C10_session_id_collision emptyState (fun _ => 0) (fun _ => "c") 5 5 cfgSmall rfl⟩
